import Mathlib

/-!
Verification of `book.py` (a small book-assistant tool): a shallow embedding of
its chapter-detection heuristic (`find_chapters`) and of its AI gateway
(`call_gemini_api`, `summarize_book`, `generate_book_quiz`), together with
theorems settling the specified properties.

Modelling conventions:
* Python strings are Lean `String`; per-character work happens on `String.data`
  (Python indexes strings by code point, as `List Char` does).
* Whitespace, word characters and letters from the regular expressions are
  modelled over their ASCII meaning (the inputs of interest are ASCII).
* Machine behaviour that Python specifies exactly (list truthiness, `str.strip`,
  slicing, `split`) is reproduced directly.
-/

/-! ## Character classes used by the heading regular expressions

The source compiles two patterns (book.py lines 72-75), both with
`re.MULTILINE | re.IGNORECASE`, and applies them with `pattern.match` to
`line.strip()`:

  Rule A: `^(Chapter\s+\d+|CHAPTER\s+\d+|Chapter\s+[IVXLCDM]+|Chapter\s+[A-Za-z]+|(\d+\.\s+)?\w+\s+.*)\s*$`
  Rule B: `^(Part\s+\d+|PART\s+\d+|Part\s+[IVXLCDM]+|Part\s+[A-Za-z]+)\s*$`
-/

/-- `\s` (ASCII part): the whitespace characters recognised by Python. -/
def isPyWs (c : Char) : Bool :=
  c = ' ' || c = '\t' || c = '\n' || c = '\r' || c = '\x0b' || c = '\x0c'

/-- `\w` (ASCII part): letters, digits and the underscore. -/
def isWordChar (c : Char) : Bool :=
  c.isAlphanum || c = '_'

/-- `[IVXLCDM]` under `re.IGNORECASE`. -/
def isRoman (c : Char) : Bool :=
  c = 'I' || c = 'V' || c = 'X' || c = 'L' || c = 'C' || c = 'D' || c = 'M' ||
  c = 'i' || c = 'v' || c = 'x' || c = 'l' || c = 'c' || c = 'd' || c = 'm'

/-- `str.strip()`: remove leading and trailing whitespace. -/
def pyStrip (l : List Char) : List Char :=
  ((l.dropWhile isPyWs).reverse.dropWhile isPyWs).reverse

/-- `str.split("\n")`: split on every newline; the number of pieces is one more
than the number of newlines, and the empty string yields `[[]]`. -/
def splitLines : List Char → List (List Char)
  | [] => [[]]
  | c :: cs =>
    if c = '\n' then [] :: splitLines cs
    else
      match splitLines cs with
      | l :: ls => (c :: l) :: ls
      | [] => [[c]]

/-- Case-insensitive literal matching (the effect of `re.IGNORECASE` on the
keywords `Chapter` and `Part`): consume `pat` from the front of `s`, comparing
characters after `toLower`, and return the remainder. -/
def dropCI : List Char → List Char → Option (List Char)
  | [], s => some s
  | _ :: _, [] => none
  | p :: ps, c :: cs => if p.toLower = c.toLower then dropCI ps cs else none

/-- One-or-more repetition of a character class, taken greedily (`p+`); the
classes this is used with are disjoint from what must follow them, so the
greedy reading coincides with full backtracking. -/
def span1 (p : Char → Bool) : List Char → Option (List Char)
  | [] => none
  | c :: cs => if p c then some (cs.dropWhile p) else none

/-- A branch of the form `keyword\s+cls+` followed by `\s*$`. -/
def chapterKeyTail (keyword : List Char) (cls : Char → Bool) (s : List Char) : Bool :=
  match dropCI keyword s with
  | none => false
  | some r =>
    match span1 isPyWs r with
    | none => false
    | some r2 =>
      match span1 cls r2 with
      | none => false
      | some r3 => r3.all isPyWs

/-- `\w+\s+.*` : a word-character run, at least one whitespace character, then
anything (stripped lines contain no newline, so `.*\s*$` always accepts the
remainder). -/
def wordThenSpace (s : List Char) : Bool :=
  match span1 isWordChar s with
  | none => false
  | some r => (span1 isPyWs r).isSome

/-- The permissive fallback branch of Rule A: `(\d+\.\s+)?\w+\s+.*`. -/
def fallbackRule (s : List Char) : Bool :=
  wordThenSpace s ||
  (match span1 Char.isDigit s with
   | some ('.' :: r) =>
     match span1 isPyWs r with
     | some r2 => wordThenSpace r2
     | none => false
   | _ => false)

/-- Rule A (book.py line 73), alternatives in source order. -/
def ruleA (s : List Char) : Bool :=
  chapterKeyTail "Chapter".data Char.isDigit s ||
  chapterKeyTail "CHAPTER".data Char.isDigit s ||
  chapterKeyTail "Chapter".data isRoman s ||
  chapterKeyTail "Chapter".data Char.isAlpha s ||
  fallbackRule s

/-- Rule B (book.py line 74), alternatives in source order. -/
def ruleB (s : List Char) : Bool :=
  chapterKeyTail "Part".data Char.isDigit s ||
  chapterKeyTail "PART".data Char.isDigit s ||
  chapterKeyTail "Part".data isRoman s ||
  chapterKeyTail "Part".data Char.isAlpha s

/-- The loop `for pattern in chapter_patterns: if pattern.match(line.strip())`:
a line opens a chapter when either rule matches its stripped content. -/
def isHeading (line : List Char) : Bool :=
  ruleA (pyStrip line) || ruleB (pyStrip line)

/-- A chapter record `{"title": ..., "start_line": ..., "end_line": ...}`.
`end_line` is `i - 1` for the line index `i` of the next heading and can be
`-1` for the initial sentinel chapter, hence integers. -/
structure Chapter where
  title : String
  start_line : Int
  end_line : Int
deriving DecidableEq, Repr

/-- The scan of book.py lines 81-100: walk the lines keeping the current
chapter title and start index; on a heading close the current chapter at
`i - 1` and open a new one at `i`; after the loop close the final chapter at
`len(lines) - 1` (when the line list is exhausted the running index `i`
equals the total number of lines, so the final `end_line` is `i - 1`). -/
def scanChapters (curTitle : List Char) (curStart : Int) (i : Nat) :
    List (List Char) → List Chapter
  | [] =>
    if curTitle ≠ [] then
      [⟨String.mk (pyStrip curTitle), curStart, (i : Int) - 1⟩]
    else []
  | line :: rest =>
    if isHeading line then
      (if curTitle ≠ [] then
        [⟨String.mk (pyStrip curTitle), curStart, (i : Int) - 1⟩]
       else []) ++
      scanChapters (pyStrip line) (i : Int) (i + 1) rest
    else
      scanChapters curTitle curStart (i + 1) rest

/-- `find_chapters` (book.py lines 64-105): split the text into lines, run the
scan starting from the sentinel title, and keep chapters with
`end_line >= start_line`. -/
def find_chapters (text_content : String) : List Chapter :=
  let lines := splitLines text_content.data
  let chapters := scanChapters "Introduction/Beginning".data 0 0 lines
  chapters.filter (fun c => decide (c.end_line ≥ c.start_line))

/-! ## Python/JSON values

`json.loads` produces nested dictionaries, lists, strings, numbers, booleans
and `None`; the model restricts numbers to integers (no floating point is
exercised at this boundary). -/

inductive PyVal where
  | pynull
  | pybool (b : Bool)
  | pyint (n : Int)
  | pystr (s : String)
  | pylist (xs : List PyVal)
  | pydict (kvs : List (String × PyVal))

/-- Dictionary lookup (`d["k"]` when present, `None` otherwise). -/
def lookupKey (kvs : List (String × PyVal)) (k : String) : Option PyVal :=
  match kvs with
  | [] => none
  | (k2, v) :: rest => if k2 = k then some v else lookupKey rest k

/-! ### `json.loads`

A recursive-descent JSON reader over `List Char`, driven by a fuel counter so
that every call is structurally recursive (string escape sequences and
non-integer numbers are not modelled; no input in this development uses them).
-/

/-- JSON insignificant whitespace. -/
def isJsonWs (c : Char) : Bool :=
  c = ' ' || c = '\t' || c = '\n' || c = '\r'

def skipJsonWs (s : List Char) : List Char := s.dropWhile isJsonWs

/-- Read a JSON string body up to the closing quote (escapes unmodelled). -/
def jstring : List Char → Option (List Char × List Char)
  | [] => none
  | '"' :: rest => some ([], rest)
  | '\\' :: _ => none
  | c :: rest =>
    match jstring rest with
    | some (str, r) => some (c :: str, r)
    | none => none

def digitVal (c : Char) : Nat := c.toNat - '0'.toNat

def readDigits : List Char → Nat → Nat × List Char
  | [], acc => (acc, [])
  | c :: rest, acc =>
    if c.isDigit then readDigits rest (acc * 10 + digitVal c) else (acc, c :: rest)

/-- Read a JSON integer (a leading minus sign and digits; a fractional part or
exponent is rejected as unmodelled). -/
def jnumber (s : List Char) : Option (PyVal × List Char) :=
  match s with
  | '-' :: c :: rest =>
    if c.isDigit then
      let (n, r) := readDigits (c :: rest) 0
      match r with
      | '.' :: _ => none
      | 'e' :: _ => none
      | 'E' :: _ => none
      | _ => some (.pyint (-(n : Int)), r)
    else none
  | c :: rest =>
    if c.isDigit then
      let (n, r) := readDigits (c :: rest) 0
      match r with
      | '.' :: _ => none
      | 'e' :: _ => none
      | 'E' :: _ => none
      | _ => some (.pyint (n : Int), r)
    else none
  | [] => none

/-- The pending production of the JSON reader: a value, the inside of an array
(before a value / after a value), or the inside of an object. -/
inductive JTask where
  | val
  | items (acc : List PyVal)
  | itemsTail (acc : List PyVal)
  | members (acc : List (String × PyVal))
  | membersTail (acc : List (String × PyVal))

def jparse : Nat → JTask → List Char → Option (PyVal × List Char)
  | 0, _, _ => none
  | Nat.succ fuel, task, s =>
    match task with
    | .val =>
      match skipJsonWs s with
      | '\x7b' :: rest => jparse fuel (.members []) rest
      | '[' :: rest => jparse fuel (.items []) rest
      | '"' :: rest =>
        match jstring rest with
        | some (str, r) => some (.pystr (String.mk str), r)
        | none => none
      | 't' :: 'r' :: 'u' :: 'e' :: rest => some (.pybool true, rest)
      | 'f' :: 'a' :: 'l' :: 's' :: 'e' :: rest => some (.pybool false, rest)
      | 'n' :: 'u' :: 'l' :: 'l' :: rest => some (.pynull, rest)
      | other => jnumber other
    | .items acc =>
      match skipJsonWs s with
      | ']' :: rest => if acc.isEmpty then some (.pylist [], rest) else none
      | other =>
        match jparse fuel .val other with
        | some (v, r) => jparse fuel (.itemsTail (v :: acc)) r
        | none => none
    | .itemsTail acc =>
      match skipJsonWs s with
      | ',' :: rest => jparse fuel (.items acc) rest
      | ']' :: rest => some (.pylist acc.reverse, rest)
      | _ => none
    | .members acc =>
      match skipJsonWs s with
      | '\x7d' :: rest => if acc.isEmpty then some (.pydict [], rest) else none
      | '"' :: rest =>
        match jstring rest with
        | some (key, r) =>
          match skipJsonWs r with
          | ':' :: r2 =>
            match jparse fuel .val r2 with
            | some (v, r3) => jparse fuel (.membersTail ((String.mk key, v) :: acc)) r3
            | none => none
          | _ => none
        | none => none
      | _ => none
    | .membersTail acc =>
      match skipJsonWs s with
      | ',' :: rest => jparse fuel (.members acc) rest
      | '\x7d' :: rest => some (.pydict acc.reverse, rest)
      | _ => none

/-- `json.loads`: parse one value and require only whitespace after it;
`none` corresponds to `json.loads` raising. -/
def json_loads (s : String) : Option PyVal :=
  match jparse (4 * s.data.length + 8) .val s.data with
  | some (v, rest) => if skipJsonWs rest = [] then some v else none
  | none => none

/-! ## The AI gateway (`call_gemini_api`, book.py lines 12-53)

The wire contract (spec section 6, assumed by lines 40-42 of the source): the
service reply carries a list of candidates, each with an optional content
holding a list of parts, each part carrying a text field.  A falsy
`candidates[0].content` (absent / null / empty) is modelled as `none`. -/

structure GeminiPart where
  text : String

structure GeminiContent where
  parts : List GeminiPart

structure GeminiCandidate where
  content : Option GeminiContent

structure GeminiResponse where
  candidates : List GeminiCandidate

/-- Outcome of the single `fetch` round trip: a transport failure (network
error, non-2xx, timeout — an exception inside the `try` block) or a decoded
response body. -/
inductive FetchOutcome where
  | failure (msg : String)
  | success (resp : GeminiResponse)

/-- One entry of `chatHistory`: `{"role": ..., "parts": [{"text": ...}]}`. -/
structure ChatMessage where
  role : String
  parts : List GeminiPart

/-- `payload["generationConfig"]` when a schema is supplied. -/
structure GenerationConfig where
  responseMimeType : String
  responseSchema : PyVal

/-- The request body: `contents` plus the optional generation config. -/
structure Payload where
  contents : List ChatMessage
  generationConfig : Option GenerationConfig

/-- What a gateway call produces: the returned value (`none` models Python
`None`), the `st.error` notifications emitted, and how many network requests
were issued. -/
structure GatewayOut where
  result : Option PyVal
  errors : List String
  apiCalls : Nat

/-- A Python exception escaping to the caller. -/
inductive PyException where
  | attributeError (msg : String)
deriving DecidableEq, Repr

/-- `chatHistory.push(...)` (book.py line 17): Python lists have no `push`
method — that is a JavaScript idiom — so evaluating the attribute raises
`AttributeError`, and this happens before the `try` block of the function. -/
def pyListPush (_chatHistory : List ChatMessage) (_msg : ChatMessage) :
    Except PyException (List ChatMessage) :=
  Except.error (.attributeError "list object has no attribute push")

/-- Book.py lines 19-53 (everything after the `chatHistory` construction):
assemble the payload, issue the one fetch, and inside the `try` block check the
envelope shape and return the text — raw without a schema, `json.loads`-parsed
with one; every failure becomes an `st.error` notification plus `None`.
`fetch` is the external service, a black box from request to outcome. -/
def call_gemini_api_after_push (fetch : Payload → FetchOutcome)
    (chatHistory : List ChatMessage) (schema : Option PyVal) : GatewayOut :=
  let payload : Payload :=
    { contents := chatHistory,
      generationConfig := schema.map (fun s =>
        { responseMimeType := "application/json", responseSchema := s }) }
  match fetch payload with
  | .failure msg =>
    { result := none,
      errors := ["An error occurred while calling the AI model: " ++ msg],
      apiCalls := 1 }
  | .success result =>
    match result.candidates with
    | [] =>
      { result := none,
        errors := ["Failed to get a valid response from the AI model. Please try again."],
        apiCalls := 1 }
    | cand :: _ =>
      match cand.content with
      | none =>
        { result := none,
          errors := ["Failed to get a valid response from the AI model. Please try again."],
          apiCalls := 1 }
      | some content =>
        match content.parts with
        | [] =>
          { result := none,
            errors := ["Failed to get a valid response from the AI model. Please try again."],
            apiCalls := 1 }
        | part :: _ =>
          match schema with
          | some _ =>
            match json_loads part.text with
            | some v => { result := some v, errors := [], apiCalls := 1 }
            | none =>
              { result := none,
                errors := ["An error occurred while calling the AI model: " ++
                           "invalid JSON in model reply"],
                apiCalls := 1 }
          | none => { result := some (.pystr part.text), errors := [], apiCalls := 1 }

/-- `call_gemini_api` (book.py lines 12-53) as written: build `chatHistory`
with `.push` — which raises — then run the remainder of the function. -/
def call_gemini_api (fetch : Payload → FetchOutcome) (prompt : String)
    (schema : Option PyVal) : Except PyException GatewayOut := do
  let chatHistory : List ChatMessage := []
  let chatHistory ← pyListPush chatHistory { role := "user", parts := [{ text := prompt }] }
  pure (call_gemini_api_after_push fetch chatHistory schema)

/-- The gateway as evidently intended, with line 17 read as the append it
stands for: the remainder of the function run on
`chatHistory = [{"role": "user", "parts": [{"text": prompt}]}]`. -/
def call_gemini_api_intended (fetch : Payload → FetchOutcome) (prompt : String)
    (schema : Option PyVal) : GatewayOut :=
  call_gemini_api_after_push fetch [{ role := "user", parts := [{ text := prompt }] }] schema

/-! ## The two use-case wrappers -/

/-- Python slicing `s[:n]`: the first `n` code points. -/
def pyTakeStr (n : Nat) (s : String) : String := String.mk (s.data.take n)

/-- The text-independent head of the summarization prompt (book.py line 59).
The percentage is `int(summary_length_ratio * 100)`; the float arithmetic
happens outside this model and the resulting integer is taken as given. -/
def summarize_header (percent : Int) : String :=
  "Please summarize the following book text in a concise manner, aiming for about " ++
  toString percent ++
  "% of the original length. Focus on the main plot, key characters, and significant events:\n\n"

/-- The summarization prompt (book.py line 59): the header followed by
`text_content[:8000]`. -/
def summarize_book_prompt (percent : Int) (text_content : String) : String :=
  summarize_header percent ++ pyTakeStr 8000 text_content

/-- `summarize_book` (book.py lines 55-62): build the prompt and call the
gateway with no schema. -/
def summarize_book (fetch : Payload → FetchOutcome) (text_content : String)
    (percent : Int) : Except PyException GatewayOut :=
  call_gemini_api fetch (summarize_book_prompt percent text_content) none

/-- `quiz_schema` (book.py lines 116-130) as the dictionary literal it is. -/
def stringSchema : PyVal := .pydict [("type", .pystr "STRING")]

def stringArraySchema : PyVal :=
  .pydict [("type", .pystr "ARRAY"), ("items", stringSchema)]

def quizItemSchema : PyVal :=
  .pydict
    [("type", .pystr "OBJECT"),
     ("properties", .pydict
       [("question", stringSchema),
        ("options", stringArraySchema),
        ("correct_answer", stringSchema)]),
     ("required", .pylist [.pystr "question", .pystr "options", .pystr "correct_answer"])]

def quiz_schema : PyVal :=
  .pydict [("type", .pystr "ARRAY"), ("items", quizItemSchema)]

/-- The fixed text of the quiz prompt before the embedded segment
(book.py lines 135-141, a triple-quoted f-string). -/
def quiz_header : String :=
  "Generate one multiple-choice question from the following text.\n" ++
  "    The question should have four options, and one correct answer.\n" ++
  "    The correct answer must be one of the provided options.\n\n" ++
  "    Text:\n    "

/-- The fixed text of the quiz prompt after the embedded segment. -/
def quiz_footer : String := "\n    "

/-- The quiz prompt: header, then `text_segment[:2000]`, then the trailing
indentation of the f-string. -/
def quiz_prompt (text_segment : String) : String :=
  quiz_header ++ pyTakeStr 2000 text_segment ++ quiz_footer

/-- `generate_book_quiz` (book.py lines 107-145) as written: an empty segment
returns the error dictionary locally (before any network use); otherwise the
prompt is built from the truncated segment and the gateway is called with
`quiz_schema`. -/
def generate_book_quiz (fetch : Payload → FetchOutcome) (text_segment : String) :
    Except PyException GatewayOut :=
  if text_segment = "" then
    Except.ok
      { result := some (.pydict [("error", .pystr "Please provide text to generate a quiz.")]),
        errors := [],
        apiCalls := 0 }
  else
    call_gemini_api fetch (quiz_prompt text_segment) (some quiz_schema)

/-- `generate_book_quiz` on top of the intended gateway (line 17 read as the
append it stands for); identical to `generate_book_quiz` in every other
respect. -/
def generate_book_quiz_intended (fetch : Payload → FetchOutcome) (text_segment : String) :
    GatewayOut :=
  if text_segment = "" then
    { result := some (.pydict [("error", .pystr "Please provide text to generate a quiz.")]),
      errors := [],
      apiCalls := 0 }
  else
    call_gemini_api_intended fetch (quiz_prompt text_segment) (some quiz_schema)

/-- Modelled from the spec: the service-side meaning of a supplied response
schema ("the service is asked to return data conforming to that schema", spec
section 4.2; the conformance semantics of the `type`/`items`/`properties`/
`required` descriptors is not code of this repository).  A value conforms to
* a STRING schema when it is a string,
* an ARRAY schema when it is a list whose elements all conform to `items`,
* an OBJECT schema when it is a dictionary carrying every `required` key whose
  fields conform to their declared `properties`.
The fuel bounds the descriptor depth. -/
def schemaConforms : Nat → PyVal → PyVal → Bool
  | 0, _, _ => false
  | Nat.succ fuel, schema, v =>
    match schema with
    | .pydict kvs =>
      match lookupKey kvs "type" with
      | some (.pystr "STRING") =>
        (match v with
         | .pystr _ => true
         | _ => false)
      | some (.pystr "ARRAY") =>
        (match v with
         | .pylist xs =>
           (match lookupKey kvs "items" with
            | some itemSchema => xs.all (schemaConforms fuel itemSchema)
            | none => true)
         | _ => false)
      | some (.pystr "OBJECT") =>
        (match v with
         | .pydict fields =>
           (match lookupKey kvs "required" with
            | some (.pylist reqs) =>
              reqs.all (fun r =>
                match r with
                | .pystr k => (lookupKey fields k).isSome
                | _ => false)
            | _ => true) &&
           (match lookupKey kvs "properties" with
            | some (.pydict props) =>
              props.all (fun kv =>
                match lookupKey fields kv.1 with
                | some fv => schemaConforms fuel kv.2 fv
                | none => true)
            | _ => true)
         | _ => false)
      | _ => false
    | _ => false

/-- Conformance to `quiz_schema`; depth 4 fully unfolds this descriptor. -/
def quizSchemaConforms (v : PyVal) : Bool := schemaConforms 4 quiz_schema v

/-! ## Derived notions used by the statements -/

/-- The chapter list `cs` exactly tiles the line range `[lo, hi]`: the first
chapter starts at `lo`, each next chapter starts right after the previous
chapter ends, and the final chapter ends at `hi` (an empty list tiles only the
empty range `lo = hi + 1`). -/
def tiles : Int → Int → List Chapter → Prop
  | lo, hi, [] => lo = hi + 1
  | lo, hi, c :: cs => c.start_line = lo ∧ tiles (c.end_line + 1) hi cs

/-- A service that replies with a well-formed envelope carrying the plain text
`reply`. -/
def replyFetch : Payload → FetchOutcome := fun _ =>
  .success { candidates := [{ content := some { parts := [{ text := "reply" }] } }] }

/-- A service that replies with a well-formed envelope whose text is a small
JSON object. -/
def jsonFetch : Payload → FetchOutcome := fun _ =>
  .success { candidates := [{ content := some { parts := [{ text := "\x7b\"a\": 1\x7d" }] } }] }

/-- A reply text that conforms to `quiz_schema` and still violates the quiz
invariant: two options only, and a correct answer that is not among them. -/
def badQuizText : String :=
  "[\x7b\"question\": \"q\", \"options\": [\"a\", \"b\"], \"correct_answer\": \"z\"\x7d]"

/-- A service answering the quiz request with `badQuizText` in a well-formed
envelope. -/
def badQuizFetch : Payload → FetchOutcome := fun _ =>
  .success { candidates := [{ content := some { parts := [{ text := badQuizText }] } }] }

/-- The fields of the single question in `badQuizText`. -/
def badQuizFields : List (String × PyVal) :=
  [("question", .pystr "q"),
   ("options", .pylist [.pystr "a", .pystr "b"]),
   ("correct_answer", .pystr "z")]

/-- The parse of `badQuizText`. -/
def badQuizVal : PyVal := .pylist [.pydict badQuizFields]

/-- A fully well-formed quiz value: four options and a correct answer among
them. -/
def goodQuizVal : PyVal :=
  .pylist [.pydict [("question", .pystr "Who sat on the mat?"),
                    ("options", .pylist [.pystr "the cat", .pystr "the dog",
                                         .pystr "the hen", .pystr "the fox"]),
                    ("correct_answer", .pystr "the cat")]]

/-! ## Auxiliary lemmas -/

theorem splitLines_ne_nil (l : List Char) : splitLines l ≠ [] := by
  induction l with
  | nil => simp [splitLines]
  | cons c cs ih =>
    simp only [splitLines]
    split
    · simp
    · split <;> simp

theorem strip_ne_nil_of_isHeading {line : List Char} (h : isHeading line = true) :
    pyStrip line ≠ [] := by
  intro hnil
  simp only [isHeading] at h
  rw [hnil] at h
  exact absurd h (by decide)

theorem scanChapters_no_heading (rest : List (List Char)) :
    ∀ (t : List Char) (s : Int) (i : Nat), t ≠ [] →
    (∀ l ∈ rest, isHeading l = false) →
    scanChapters t s i rest =
      [⟨String.mk (pyStrip t), s, (i : Int) + (rest.length : Int) - 1⟩] := by
  induction rest with
  | nil =>
    intro t s i ht _
    simp [scanChapters, ht]
  | cons line rest ih =>
    intro t s i ht hall
    have hline : isHeading line = false := hall line (List.mem_cons_self _ _)
    simp only [scanChapters, hline, Bool.false_eq_true, if_false]
    rw [ih t s (i + 1) ht (fun l hl => hall l (List.mem_cons_of_mem _ hl))]
    simp only [List.length_cons, Chapter.mk.injEq, List.cons.injEq, and_true, true_and]
    push_cast
    ring

/-! ## Claim theorems -/

/-- C5: on `"Chapter 1\nfoo\nChapter 2\nbar"`, `find_chapters` returns exactly
the two chapters `{"Chapter 1", 0, 1}` and `{"Chapter 2", 2, 3}`, in that
order. -/
theorem c5_two_chapters :
    find_chapters "Chapter 1\nfoo\nChapter 2\nbar" =
      [⟨"Chapter 1", 0, 1⟩, ⟨"Chapter 2", 2, 3⟩] := by decide

/-- C1 (counterexample): on `"Chapter 1\nChapter 2\nbody"` the result is not
the single chapter `{"Chapter 2", 1, 2}` — the first chapter is not dropped. -/
theorem c1_counterexample :
    find_chapters "Chapter 1\nChapter 2\nbody" ≠ [⟨"Chapter 2", 1, 2⟩] := by decide

/-- C1 (amended): a heading line immediately followed by another heading line
yields a chapter covering exactly its own heading line (`end_line =
start_line`), which the `end_line >= start_line` filter keeps; only the empty
sentinel chapter (`end_line = -1`, produced when line 0 is a heading) is
dropped.  On `"Chapter 1\nChapter 2\nbody"` the result is therefore
`{"Chapter 1", 0, 0}` followed by `{"Chapter 2", 1, 2}`. -/
theorem c1_amended :
    find_chapters "Chapter 1\nChapter 2\nbody" =
      [⟨"Chapter 1", 0, 0⟩, ⟨"Chapter 2", 1, 2⟩] := by decide

/-- C4: when no line of the text matches either heading rule, `find_chapters`
returns exactly one chapter: the sentinel title, `start_line = 0` and
`end_line` the last line index. -/
theorem c4_no_heading_single_chapter (text : String)
    (h : ∀ l ∈ splitLines text.data, isHeading l = false) :
    find_chapters text =
      [⟨"Introduction/Beginning", 0, ((splitLines text.data).length : Int) - 1⟩] := by
  have hlen : splitLines text.data ≠ [] := splitLines_ne_nil _
  have hlen1 : 1 ≤ (splitLines text.data).length := List.length_pos.mpr hlen
  show (scanChapters "Introduction/Beginning".data 0 0 (splitLines text.data)).filter
      (fun c => decide (c.end_line ≥ c.start_line)) = _
  rw [scanChapters_no_heading _ _ _ _ (by decide) h]
  have htitle : String.mk (pyStrip "Introduction/Beginning".data) =
      "Introduction/Beginning" := by decide
  have hkeep : decide ((((0 : Nat) : Int) + ((splitLines text.data).length : Int) - 1 : Int) ≥ 0)
      = true := decide_eq_true (by push_cast; omega)
  simp only [List.filter_cons, List.filter_nil, hkeep, if_true, htitle,
    Chapter.mk.injEq, List.cons.injEq, and_true, true_and]
  push_cast
  ring

/-- Witness for C4 at the concrete text `"hello\nworld"`. -/
theorem c4_witness :
    (∀ l ∈ splitLines "hello\nworld".data, isHeading l = false) ∧
    find_chapters "hello\nworld" =
      [⟨"Introduction/Beginning", 0, ((splitLines "hello\nworld".data).length : Int) - 1⟩] :=
  ⟨by decide, c4_no_heading_single_chapter "hello\nworld" (by decide)⟩

/-- C9: every chapter returned by `find_chapters` satisfies
`end_line >= start_line` (the final filter of the function). -/
theorem c9_end_ge_start (text : String) (c : Chapter) (hc : c ∈ find_chapters text) :
    c.end_line ≥ c.start_line := by
  simp only [find_chapters, List.mem_filter] at hc
  exact of_decide_eq_true hc.2

/-- Witness for C9: a concrete chapter of a concrete text. -/
theorem c9_witness :
    (⟨"Introduction/Beginning", 0, 0⟩ : Chapter) ∈ find_chapters "x" ∧
    (⟨"Introduction/Beginning", 0, 0⟩ : Chapter).end_line ≥
      (⟨"Introduction/Beginning", 0, 0⟩ : Chapter).start_line :=
  ⟨by decide, c9_end_ge_start "x" _ (by decide)⟩

/-- C2 (the code, as written): `call_gemini_api` raises `AttributeError` at
`chatHistory.push` — before the `try` block, before any request — for every
prompt, schema and service behaviour, so every failure reaches the caller as
an exception rather than as a notification plus `None`. -/
theorem c2_always_raises (fetch : Payload → FetchOutcome) (prompt : String)
    (schema : Option PyVal) :
    call_gemini_api fetch prompt schema =
      Except.error (.attributeError "list object has no attribute push") := rfl

/-- C7: with an empty text segment, `generate_book_quiz` returns the structured
error dictionary synchronously — same output for every service behaviour, zero
network calls, no notification, no exception. -/
theorem c7_empty_quiz_local_error (fetch : Payload → FetchOutcome) :
    generate_book_quiz fetch "" =
      Except.ok
        { result := some (.pydict [("error", .pystr "Please provide text to generate a quiz.")]),
          errors := [],
          apiCalls := 0 } := rfl

/-- C6: the summarization prompt embeds exactly `text_content[:8000]` (a prefix
of at most 8000 characters) after a text-independent header, and the quiz
prompt embeds exactly `text_segment[:2000]` (a prefix of at most 2000
characters) between its fixed header and footer. -/
theorem c6_truncation (percent : Int) (text_content text_segment : String) :
    summarize_book_prompt percent text_content =
      summarize_header percent ++ pyTakeStr 8000 text_content ∧
    (pyTakeStr 8000 text_content).data = text_content.data.take 8000 ∧
    (pyTakeStr 8000 text_content).length ≤ 8000 ∧
    quiz_prompt text_segment =
      quiz_header ++ pyTakeStr 2000 text_segment ++ quiz_footer ∧
    (pyTakeStr 2000 text_segment).data = text_segment.data.take 2000 ∧
    (pyTakeStr 2000 text_segment).length ≤ 2000 := by
  refine ⟨rfl, rfl, ?_, rfl, rfl, ?_⟩
  · show (text_content.data.take 8000).length ≤ 8000
    rw [List.length_take]
    omega
  · show (text_segment.data.take 2000).length ≤ 2000
    rw [List.length_take]
    omega

/-- C8 (the code, as written): even with the service delivering a well-formed
envelope, `call_gemini_api` raises at `chatHistory.push` and returns nothing;
the response handling of its `try` block (run on the chat history the push was
meant to build) does return the raw text when no schema is supplied and the
`json.loads`-parsed text when one is. -/
theorem c8_envelope_handling :
    call_gemini_api replyFetch "hi" none =
      Except.error (.attributeError "list object has no attribute push") ∧
    call_gemini_api_after_push replyFetch
        [{ role := "user", parts := [{ text := "hi" }] }] none =
      { result := some (.pystr "reply"), errors := [], apiCalls := 1 } ∧
    call_gemini_api_after_push jsonFetch
        [{ role := "user", parts := [{ text := "hi" }] }] (some quiz_schema) =
      { result := some (.pydict [("a", .pyint 1)]), errors := [], apiCalls := 1 } :=
  ⟨rfl, rfl, rfl⟩

/-- C3 (counterexample): a reply that conforms to the declared `quiz_schema`
can still violate the claimed invariant — here a successful schema-constrained
quiz call returns a question with two options and a correct answer that equals
none of them, because neither the schema nor any code checks the invariant. -/
theorem c3_counterexample :
    (generate_book_quiz_intended badQuizFetch "The cat sat on the mat.").result =
      some (.pylist [.pydict badQuizFields]) ∧
    quizSchemaConforms (.pylist [.pydict badQuizFields]) = true ∧
    lookupKey badQuizFields "options" = some (.pylist [.pystr "a", .pystr "b"]) ∧
    ([PyVal.pystr "a", PyVal.pystr "b"] : List PyVal).length ≠ 4 ∧
    lookupKey badQuizFields "correct_answer" = some (.pystr "z") ∧
    "z" ≠ "a" ∧ "z" ≠ "b" :=
  ⟨rfl, rfl, rfl, by decide, rfl, by decide, by decide⟩

/-- Split a true Boolean conjunction. -/
theorem band_split {a b : Bool} (h : (a && b) = true) : a = true ∧ b = true := by
  simp only [Bool.and_eq_true] at h
  exact h

/-- A value conforming to a `{"type": "STRING"}` descriptor is a string. -/
theorem conforms_string {fuel : Nat} {v : PyVal}
    (h : schemaConforms (fuel + 1) stringSchema v = true) : ∃ s, v = .pystr s := by
  cases v with
  | pystr s => exact ⟨s, rfl⟩
  | pynull => exact Bool.noConfusion h
  | pybool b => exact Bool.noConfusion h
  | pyint n => exact Bool.noConfusion h
  | pylist xs => exact Bool.noConfusion h
  | pydict kvs => exact Bool.noConfusion h

/-- A value conforming to the options descriptor is a list of strings. -/
theorem conforms_string_array {fuel : Nat} {v : PyVal}
    (h : schemaConforms (fuel + 2) stringArraySchema v = true) :
    ∃ xs, v = .pylist xs ∧ ∀ o ∈ xs, ∃ s, o = .pystr s := by
  cases v with
  | pylist xs =>
    refine ⟨xs, rfl, ?_⟩
    intro o ho
    have h2 : xs.all (schemaConforms (fuel + 1) stringSchema) = true := h
    exact conforms_string (List.all_eq_true.mp h2 o ho)
  | pynull => exact Bool.noConfusion h
  | pybool b => exact Bool.noConfusion h
  | pyint n => exact Bool.noConfusion h
  | pystr s => exact Bool.noConfusion h
  | pydict kvs => exact Bool.noConfusion h

/-- C3 (amended): what the declared schema does guarantee for a conforming
reply — an array of objects, each carrying a string `question`, an `options`
array of strings (of unconstrained length) and a string `correct_answer` (not
constrained to be an element of `options`). -/
theorem c3_schema_guarantee (v : PyVal) (h : quizSchemaConforms v = true) :
    ∃ xs, v = .pylist xs ∧
      ∀ q ∈ xs, ∃ fields, q = .pydict fields ∧
        (∃ qtext, lookupKey fields "question" = some (.pystr qtext)) ∧
        (∃ opts, lookupKey fields "options" = some (.pylist opts) ∧
          ∀ o ∈ opts, ∃ s, o = .pystr s) ∧
        (∃ ans, lookupKey fields "correct_answer" = some (.pystr ans)) := by
  cases v with
  | pylist xs =>
    refine ⟨xs, rfl, ?_⟩
    intro q hq
    have hall : xs.all (schemaConforms 3 quizItemSchema) = true := h
    have hq3 : schemaConforms 3 quizItemSchema q = true := List.all_eq_true.mp hall q hq
    cases q with
    | pydict fields =>
      refine ⟨fields, rfl, ?_, ?_, ?_⟩ <;>
      · have hparts := band_split hq3
        have hreq := hparts.1
        have hprops := hparts.2
        have hreq1 := band_split hreq
        have hreq2 := band_split hreq1.2
        have hreq3 := band_split hreq2.2
        have hprops1 := band_split hprops
        have hprops2 := band_split hprops1.2
        have hprops3 := band_split hprops2.2
        first
        | · obtain ⟨fv, hfv⟩ := Option.isSome_iff_exists.mp hreq1.1
            have hcf : (match lookupKey fields "question" with
              | some fv => schemaConforms 2 stringSchema fv
              | none => true) = true := hprops1.1
            rw [hfv] at hcf
            obtain ⟨s, rfl⟩ := conforms_string hcf
            exact ⟨s, hfv⟩
        | · obtain ⟨fv, hfv⟩ := Option.isSome_iff_exists.mp hreq2.1
            have hcf : (match lookupKey fields "options" with
              | some fv => schemaConforms 2 stringArraySchema fv
              | none => true) = true := hprops2.1
            rw [hfv] at hcf
            obtain ⟨opts, rfl, hopts⟩ := conforms_string_array hcf
            exact ⟨opts, hfv, hopts⟩
        | · obtain ⟨fv, hfv⟩ := Option.isSome_iff_exists.mp hreq3.1
            have hcf : (match lookupKey fields "correct_answer" with
              | some fv => schemaConforms 2 stringSchema fv
              | none => true) = true := hprops3.1
            rw [hfv] at hcf
            obtain ⟨s, rfl⟩ := conforms_string hcf
            exact ⟨s, hfv⟩
    | pynull => exact Bool.noConfusion hq3
    | pybool b => exact Bool.noConfusion hq3
    | pyint n => exact Bool.noConfusion hq3
    | pystr s => exact Bool.noConfusion hq3
    | pylist ys => exact Bool.noConfusion hq3
  | pynull => exact Bool.noConfusion h
  | pybool b => exact Bool.noConfusion h
  | pyint n => exact Bool.noConfusion h
  | pystr s => exact Bool.noConfusion h
  | pydict kvs => exact Bool.noConfusion h

/-- Witness for the amended C3 at a fully well-formed quiz value. -/
theorem c3_schema_guarantee_witness :
    quizSchemaConforms goodQuizVal = true ∧
    (∃ xs, goodQuizVal = .pylist xs ∧
      ∀ q ∈ xs, ∃ fields, q = .pydict fields ∧
        (∃ qtext, lookupKey fields "question" = some (.pystr qtext)) ∧
        (∃ opts, lookupKey fields "options" = some (.pylist opts) ∧
          ∀ o ∈ opts, ∃ s, o = .pystr s) ∧
        (∃ ans, lookupKey fields "correct_answer" = some (.pystr ans))) :=
  ⟨rfl, c3_schema_guarantee goodQuizVal rfl⟩

/-- The chapter filter keeps a chapter with `end_line >= start_line`. -/
theorem chapterFilter_keep (ti : String) (a b : Int) (h : b ≥ a) :
    List.filter (fun (c : Chapter) => decide (c.end_line ≥ c.start_line)) [⟨ti, a, b⟩] =
      [(⟨ti, a, b⟩ : Chapter)] := by
  simp [List.filter_cons, h]

/-- The chapter filter drops a chapter with `end_line < start_line`. -/
theorem chapterFilter_drop (ti : String) (a b : Int) (h : ¬ b ≥ a) :
    List.filter (fun (c : Chapter) => decide (c.end_line ≥ c.start_line)) [⟨ti, a, b⟩] =
      [] := by
  simp [List.filter_cons, h]

/-- Unfolding of `tiles` on an explicit chapter. -/
theorem tiles_cons (ti : String) (a b lo hi : Int) (cs : List Chapter) :
    tiles lo hi ((⟨ti, a, b⟩ : Chapter) :: cs) ↔ (a = lo ∧ tiles (b + 1) hi cs) :=
  Iff.rfl

/-- The filtered scan output tiles the remaining line range: starting a scan at
line `i` with an open chapter that began at line `s ≤ i`, the kept chapters
exactly tile `[s, i + rest.length - 1]`. -/
theorem scanChapters_tiles (rest : List (List Char)) :
    ∀ (t : List Char) (s : Int) (i : Nat), t ≠ [] → s ≤ (i : Int) →
    s ≤ (i : Int) + (rest.length : Int) - 1 →
    tiles s ((i : Int) + (rest.length : Int) - 1)
      ((scanChapters t s i rest).filter
        (fun (c : Chapter) => decide (c.end_line ≥ c.start_line))) := by
  induction rest with
  | nil =>
    intro t s i ht _ hs
    simp only [List.length_nil, Nat.cast_zero] at hs ⊢
    have hscan : scanChapters t s i [] = [⟨String.mk (pyStrip t), s, (i : Int) - 1⟩] := by
      simp [scanChapters, ht]
    rw [hscan, chapterFilter_keep _ _ _ (by omega), tiles_cons]
    refine ⟨rfl, ?_⟩
    simp only [tiles]
    omega
  | cons line rest ih =>
    intro t s i ht hsi hs
    simp only [List.length_cons] at hs ⊢
    have harith : (((i + 1 : Nat) : Int) + (rest.length : Int) - 1) =
        ((i : Int) + ((rest.length + 1 : Nat) : Int) - 1) := by
      push_cast
      ring
    by_cases hl : isHeading line = true
    · have hstrip : pyStrip line ≠ [] := strip_ne_nil_of_isHeading hl
      have hscan : scanChapters t s i (line :: rest) =
          [⟨String.mk (pyStrip t), s, (i : Int) - 1⟩] ++
            scanChapters (pyStrip line) (i : Int) (i + 1) rest := by
        simp [scanChapters, hl, ht]
      rw [hscan, List.filter_append]
      have ihx := ih (pyStrip line) (i : Int) (i + 1) hstrip (by omega) (by omega)
      rw [harith] at ihx
      by_cases hk : ((i : Int) - 1) ≥ s
      · rw [chapterFilter_keep _ _ _ hk, List.cons_append, List.nil_append, tiles_cons]
        refine ⟨rfl, ?_⟩
        rw [show ((i : Int) - 1) + 1 = (i : Int) from by ring]
        exact ihx
      · have hseq : s = (i : Int) := by omega
        rw [chapterFilter_drop _ _ _ hk, List.nil_append, hseq]
        exact ihx
    · have hscan : scanChapters t s i (line :: rest) = scanChapters t s (i + 1) rest := by
        simp [scanChapters, hl]
      rw [hscan]
      have ihx := ih t s (i + 1) ht (by omega) (by omega)
      rw [harith] at ihx
      exact ihx

/-- C10: `find_chapters` never returns the empty list, and its output tiles
the whole line range — the first chapter starts at line 0, each later chapter
starts right after the previous one ends, and the last chapter ends at the
last line index. -/
theorem c10_partition (text : String) :
    find_chapters text ≠ [] ∧
    tiles 0 (((splitLines text.data).length : Int) - 1) (find_chapters text) := by
  have hlen1 : 1 ≤ (splitLines text.data).length :=
    List.length_pos.mpr (splitLines_ne_nil _)
  have hmain := scanChapters_tiles (splitLines text.data) "Introduction/Beginning".data 0 0
    (by decide) (by norm_num) (by push_cast; omega)
  rw [show (((0 : Nat) : Int) + ((splitLines text.data).length : Int) - 1) =
      ((splitLines text.data).length : Int) - 1 from by push_cast; ring] at hmain
  have hmain2 : tiles 0 (((splitLines text.data).length : Int) - 1) (find_chapters text) :=
    hmain
  refine ⟨?_, hmain2⟩
  intro hnil
  rw [hnil] at hmain2
  simp only [tiles] at hmain2
  omega
